import Mathlib

/-!
Verification of the toolkit-rag document classification and selective
indexing pipeline (`src/rag_client/`).

The Python sources are shallowly embedded:
  * paths are modelled as strings; `pathlib.Path.parts` / `.name` /
    `.suffix` are reproduced by executable functions over the string
    (on normalized path strings, which is what `Path.glob` yields);
  * the network / filesystem environment is passed explicitly: a file
    size lookup becomes `Option Nat` (`none` = `OSError`), an upload
    becomes an outcome value (`ok` / `err` / `exc`), a health probe
    becomes an `HttpOutcome`;
  * Python `set` literals become `List` with membership tests only, so
    ordering is irrelevant, matching Python set semantics.

Namespaces mirror the source modules:
  `Processor`     = `src/rag_client/processor.py` (`DocumentProcessor`)
  `DocProcessor`  = `src/rag_client/document_processor.py`
                    (`SuperClaudeDocumentProcessor`)
  `RagClient`     = `src/rag_client/rag_client.py` (`SuperClaudeRAGClient`)
  `Client`        = `src/rag_client/client.py` (`RAGClient`)
-/

/-- The closed `DocumentType` enumeration shared by both processors
(`code | documentation | configuration | test | other`); the second
constructor is abbreviated `doc` and the third `config`. -/
inductive DocumentType where
  | code
  | doc
  | config
  | test
  | other
deriving DecidableEq, Repr

/-- Whether `pat` occurs as a contiguous substring of `s`: the embedding of
the Python expression `pat in s` on strings. -/
def strContains (s pat : String) : Bool :=
  let cs := s.data
  let ps := pat.data
  (List.range (cs.length + 1)).any (fun i => List.take ps.length (List.drop i cs) == ps)

/-- Split a character list at `'/'` separators (accumulator holds the
current segment reversed). -/
def splitSegsAux (cur : List Char) : List Char → List (List Char)
  | [] => [cur.reverse]
  | c :: rest =>
    if c == '/' then cur.reverse :: splitSegsAux [] rest
    else splitSegsAux (c :: cur) rest

/-- Embedding of `pathlib.Path(p).parts` for normalized relative/absolute
path strings: the `/`-separated segments, with empty and `"."` segments
dropped (pathlib normalizes those away; the root segment, which never
starts with `'.'`, is irrelevant to every use below). -/
def pathParts (p : String) : List String :=
  ((splitSegsAux [] p.data).map (fun seg => String.mk seg)).filter
    (fun s => !(s == "") && !(s == "."))

/-- Embedding of `pathlib.Path(p).name`: the final path segment. -/
def pathName (p : String) : String :=
  (pathParts p).getLastD ""

/-- Embedding of `pathlib.Path(p).suffix`: the final-segment substring from
its last `'.'`, provided that dot is neither the first nor the last
character of the name (CPython: `0 < i < len(name) - 1`). -/
def pathSuffix (p : String) : String :=
  let name := pathName p
  let cs := name.data
  let dotIdxs := (List.range cs.length).filter (fun i => cs.getD i ' ' == '.')
  match dotIdxs.getLast? with
  | some i => if 0 < i && i + 1 < cs.length then String.mk (cs.drop i) else ""
  | none => ""

/-- Embedding of Python `s.startswith(pat)`. -/
def strStartsWith (s pat : String) : Bool :=
  s.data.take pat.data.length == pat.data

/-- ASCII lowercasing of one character, as `str.lower` acts on the ASCII
range used by the extension tables. -/
def charLower (c : Char) : Char :=
  if 'A' ≤ c && c ≤ 'Z' then Char.ofNat (c.toNat + 32) else c

/-- Embedding of Python `str.lower()` (ASCII range). -/
def lowerStr (s : String) : String :=
  String.mk (s.data.map charLower)

-- Sanity checks that the path model matches pathlib on the shapes used below.
example : pathParts "tests/test_foo.py" = ["tests", "test_foo.py"] := by decide
example : pathSuffix "tests/test_foo.py" = ".py" := by decide
example : pathSuffix ".gitignore" = "" := by decide
example : lowerStr "Foo.PY" = "foo.py" := by decide
example : strContains "environment.py" "env" = true := by decide
example : strContains "main.py" "env" = false := by decide

namespace Processor

/-- `DocumentProcessor.code_extensions`. -/
def codeExtensions : List String :=
  [".py", ".js", ".ts", ".tsx", ".jsx", ".java", ".cpp", ".c", ".h",
   ".cs", ".php", ".rb", ".go", ".rs", ".swift", ".kt", ".scala",
   ".r", ".m", ".mm", ".sql", ".sh", ".bash", ".ps1", ".lua", ".pl",
   ".dart", ".vue", ".svelte", ".elm", ".clj", ".cljs", ".hs", ".ml",
   ".fs", ".vb", ".pas", ".asm", ".s", ".scss", ".sass", ".less", ".css"]

/-- `DocumentProcessor.doc_extensions`. -/
def docExtensions : List String :=
  [".md", ".txt", ".rst", ".adoc", ".org", ".tex", ".rtf",
   ".pdf", ".doc", ".docx", ".odt", ".html", ".htm", ".xml"]

/-- `DocumentProcessor.config_extensions`. -/
def configExtensions : List String :=
  [".json", ".yaml", ".yml", ".toml", ".ini", ".cfg", ".conf",
   ".env", ".properties", ".plist", ".config"]

/-- `DocumentProcessor.test_patterns`. -/
def testPatterns : List String :=
  ["test_", "_test", ".test.", ".spec.", "_spec", "tests/",
   "test/", "__test__", "__tests__"]

/-- `DocumentProcessor.language_map` (extension → language name). -/
def languageMap : List (String × String) :=
  [(".py", "python"), (".js", "javascript"), (".ts", "typescript"),
   (".java", "java"), (".cpp", "cpp"), (".c", "c"), (".h", "c"),
   (".cs", "csharp"), (".php", "php"), (".rb", "ruby"), (".go", "go"),
   (".rs", "rust"), (".swift", "swift"), (".kt", "kotlin"), (".scala", "scala"),
   (".sql", "sql"), (".sh", "bash"), (".bash", "bash"), (".ps1", "powershell"),
   (".html", "html"), (".css", "css"), (".scss", "scss"), (".sass", "sass"),
   (".vue", "vue"), (".svelte", "svelte"), (".dart", "dart")]

/-- The `exclusions` set of `DocumentProcessor._should_include_file`. -/
def exclusions : List String :=
  [".git", "__pycache__", "node_modules", ".pytest_cache",
   ".mypy_cache", ".coverage", "dist", "build", ".venv",
   "venv", ".env", "env", ".DS_Store", "Thumbs.db"]

/-- `DocumentProcessor._classify_document`: test-pattern substring check on
the lowercased full path first, then the three extension sets in order,
default `other`. -/
def classifyDocument (filePath : String) : DocumentType :=
  let fileStr := lowerStr filePath
  let extension := lowerStr (pathSuffix filePath)
  if testPatterns.any (fun pat => strContains fileStr pat) then DocumentType.test
  else if codeExtensions.contains extension then DocumentType.code
  else if docExtensions.contains extension then DocumentType.doc
  else if configExtensions.contains extension then DocumentType.config
  else DocumentType.other

/-- `DocumentProcessor._detect_language`: `language_map.get(suffix.lower())`. -/
def detectLanguage (filePath : String) : Option String :=
  languageMap.lookup (lowerStr (pathSuffix filePath))

/-- The 10 MiB ceiling of `_should_include_file` (`10 * 1024 * 1024`). -/
def sizeLimit : Nat := 10 * 1024 * 1024

/-- `DocumentProcessor._should_include_file`; `statSize` is the result of
`file_path.stat().st_size`, with `none` standing for the `OSError` branch. -/
def shouldIncludeFile (filePath : String) (statSize : Option Nat)
    (includeCode includeDocs includeConfigs includeTests : Bool) : Bool :=
  let docType := classifyDocument filePath
  if exclusions.any (fun excl => strContains filePath excl) then false
  else
    match statSize with
    | none => false
    | some size =>
      if size > sizeLimit then false
      else if docType == DocumentType.code && !includeCode then false
      else if docType == DocumentType.doc && !includeDocs then false
      else if docType == DocumentType.config && !includeConfigs then false
      else if docType == DocumentType.test && !includeTests then false
      else true

/-- The `DocumentMetadata` dataclass of `processor.py` (the float
`last_modified` timestamp is modelled as `Int`). -/
structure DocumentMetadata where
  file_path : String
  file_type : DocumentType
  language : Option String
  size : Nat
  last_modified : Int
  project_id : String

/-- The metadata constructed for one file inside
`DocumentProcessor.process_project` (lines 250-258): classification and
language detection both run on the path, language unconditionally. -/
def mkMetadata (filePath : String) (size : Nat) (lastModified : Int)
    (projectId : String) : DocumentMetadata :=
  { file_path := filePath
    file_type := classifyDocument filePath
    language := detectLanguage filePath
    size := size
    last_modified := lastModified
    project_id := projectId }

/-- How one item of `process_project` settles: `statErr` is the `except`
branch (metadata construction raised), `uploadOk` / `uploadFail` the two
boolean results of `_upload_document` (which itself catches every
exception and returns `False`). -/
inductive ItemOutcome where
  | statErr
  | uploadOk
  | uploadFail
deriving DecidableEq

/-- The `stats` accumulator dictionary of `process_project`; `byType` maps a
category to its tally (0 = key absent). -/
structure ProcStats where
  total_files : Nat
  successful : Nat
  failed : Nat
  byType : DocumentType → Nat

/-- The body of the per-file loop of `process_project` (lines 245-275):
on `statErr` only `failed` increments; otherwise exactly one of
`successful` / `failed` increments and the `by_type` tally for the category of the file increments unconditionally. -/
def processItem (out : String → ItemOutcome) (stats : ProcStats)
    (filePath : String) : ProcStats :=
  let docType := classifyDocument filePath
  match out filePath with
  | ItemOutcome.statErr => { stats with failed := stats.failed + 1 }
  | ItemOutcome.uploadOk =>
      { stats with successful := stats.successful + 1
                   byType := fun t => if t = docType then stats.byType t + 1 else stats.byType t }
  | ItemOutcome.uploadFail =>
      { stats with failed := stats.failed + 1
                   byType := fun t => if t = docType then stats.byType t + 1 else stats.byType t }

/-- The processing loop of `process_project` over the collected worklist
`files`, starting from `total_files = len(files)` and zero counters. -/
def processProjectRun (files : List String) (out : String → ItemOutcome) : ProcStats :=
  files.foldl (processItem out)
    { total_files := files.length, successful := 0, failed := 0, byType := fun _ => 0 }

/-- Result of `process_project`: either the early `{"error": ...}` mapping
or a stats mapping. -/
inductive ProcResult where
  | error (msg : String)
  | stats (s : ProcStats)

/-- `DocumentProcessor.process_project` after the walk: `rootExists` is
`project_dir.exists()`, `files` the worklist that survived
`_should_include_file`. A nonexistent root returns the error mapping
before any processing (lines 211-212). -/
def processProject (rootExists : Bool) (files : List String)
    (out : String → ItemOutcome) : ProcResult :=
  if rootExists then ProcResult.stats (processProjectRun files out)
  else ProcResult.error "Project path does not exist"

end Processor

-- Model sanity checks against hand-traced source behavior.
example : Processor.classifyDocument "tests/test_foo.py" = DocumentType.test := by decide
example : Processor.classifyDocument "src/main.py" = DocumentType.code := by decide
example : Processor.classifyDocument "README.md" = DocumentType.doc := by decide
example : Processor.classifyDocument "config.yaml" = DocumentType.config := by decide
example : Processor.classifyDocument "data.xyz" = DocumentType.other := by decide
example : Processor.detectLanguage "src/main.py" = some "python" := by decide
example : Processor.shouldIncludeFile "data.xyz" (some 10) false false false false = true := by decide

namespace DocProcessor

/-- `SuperClaudeDocumentProcessor.code_extensions`. -/
def codeExtensions : List String :=
  [".py", ".js", ".ts", ".tsx", ".jsx", ".java", ".cpp", ".c", ".h",
   ".cs", ".php", ".rb", ".go", ".rs", ".swift", ".kt", ".scala",
   ".r", ".m", ".mm", ".sql", ".sh", ".bash", ".ps1", ".lua", ".pl"]

/-- `SuperClaudeDocumentProcessor.doc_extensions`. -/
def docExtensions : List String :=
  [".md", ".txt", ".rst", ".adoc", ".tex", ".doc", ".docx", ".pdf"]

/-- `SuperClaudeDocumentProcessor.config_extensions`. -/
def configExtensions : List String :=
  [".json", ".yaml", ".yml", ".toml", ".ini", ".conf", ".cfg",
   ".env", ".properties", ".xml", ".plist"]

/-- `SuperClaudeDocumentProcessor.test_patterns`. -/
def testPatterns : List String :=
  ["test_", "_test", ".test.", ".spec.", "tests/", "test/",
   "__tests__/", "spec/", "cypress/", "e2e/"]

/-- The `extension_map` of `SuperClaudeDocumentProcessor._get_language`. -/
def extensionMap : List (String × String) :=
  [(".py", "python"), (".js", "javascript"), (".ts", "typescript"),
   (".tsx", "typescript"), (".jsx", "javascript"), (".java", "java"),
   (".cpp", "cpp"), (".c", "c"), (".h", "c"), (".cs", "csharp"),
   (".php", "php"), (".rb", "ruby"), (".go", "go"), (".rs", "rust"),
   (".swift", "swift"), (".kt", "kotlin"), (".scala", "scala"),
   (".r", "r"), (".m", "objective-c"), (".sql", "sql"),
   (".sh", "bash"), (".bash", "bash"), (".ps1", "powershell")]

/-- The `allowed_dotfiles` set of `_should_process_file`. -/
def allowedDotfiles : List String :=
  [".gitignore", ".env.example", ".dockerignore"]

/-- The `skip_dirs` set of `_should_process_file`. -/
def skipDirs : List String :=
  ["node_modules", "dist", "build", "__pycache__", ".git",
   "venv", "env", ".venv", "target", "bin", "obj", "out"]

/-- `SuperClaudeDocumentProcessor._get_file_type`: test patterns on the
lowercased path string first, then the three extension sets, default
`other`. -/
def getFileType (filePath : String) : DocumentType :=
  let pathStr := lowerStr filePath
  let extension := lowerStr (pathSuffix filePath)
  if testPatterns.any (fun pat => strContains pathStr pat) then DocumentType.test
  else if codeExtensions.contains extension then DocumentType.code
  else if docExtensions.contains extension then DocumentType.doc
  else if configExtensions.contains extension then DocumentType.config
  else DocumentType.other

/-- `SuperClaudeDocumentProcessor._get_language`. -/
def getLanguage (filePath : String) : Option String :=
  extensionMap.lookup (lowerStr (pathSuffix filePath))

/-- `SuperClaudeDocumentProcessor._should_process_file` (lines 115-146):
hidden-segment check with the dotfile allow-list, then the `skip_dirs`
substring deny-list, then the `"all"` override, then category gating. -/
def shouldProcessFile (filePath : String) (includePatterns : List String) : Bool :=
  if (pathParts filePath).any (fun part => strStartsWith part ".") &&
     !(allowedDotfiles.contains (pathName filePath)) then false
  else if skipDirs.any (fun d => strContains filePath d) then false
  else if includePatterns.contains "all" then true
  else
    let fileType := getFileType filePath
    (includePatterns.contains "code" && fileType == DocumentType.code) ||
    (includePatterns.contains "docs" && fileType == DocumentType.doc) ||
    (includePatterns.contains "configs" && fileType == DocumentType.config) ||
    (includePatterns.contains "tests" && fileType == DocumentType.test)

/-- The `DocumentMetadata` dataclass of `document_processor.py`. -/
structure DocMetadata where
  file_path : String
  file_type : DocumentType
  language : Option String
  size : Nat
  last_modified : Int
  project_id : String

/-- The metadata constructed at walk time inside
`SuperClaudeDocumentProcessor.index_project` (lines 211-218): type from
`_get_file_type`, language from `_get_language`, both unconditional. -/
def mkDocMetadata (filePath : String) (size : Nat) (lastModified : Int)
    (projectId : String) : DocMetadata :=
  { file_path := filePath
    file_type := getFileType filePath
    language := getLanguage filePath
    size := size
    last_modified := lastModified
    project_id := projectId }

/-- How one upload of `index_project` settles: `ok` (`True` from
`_upload_document`), `err` (`False`), or `exc` (the
`isinstance(result, Exception)` case of `asyncio.gather`). -/
inductive UploadOutcome where
  | ok
  | err
  | exc
deriving DecidableEq

/-- The `stats` accumulator of `index_project`; `byType` maps a category to
its `by_type` tally (0 = key absent). -/
structure IndexStats where
  total_files : Nat
  successful : Nat
  failed : Nat
  byType : DocumentType → Nat

/-- One `(item, result)` step of the settling loop (lines 244-253): an
exception or a `False` result increments `failed` only; a `True` result
increments `successful` and the category tally of the item. -/
def settleItem (stats : IndexStats) (item : String × DocMetadata)
    (result : UploadOutcome) : IndexStats :=
  match result with
  | UploadOutcome.exc => { stats with failed := stats.failed + 1 }
  | UploadOutcome.ok =>
      { stats with successful := stats.successful + 1
                   byType := fun t => if t = item.2.file_type
                                      then stats.byType t + 1 else stats.byType t }
  | UploadOutcome.err => { stats with failed := stats.failed + 1 }

/-- Fuel-indexed batch splitter; with `fuel ≥ l.length` and
`batchSize ≥ 1` it reproduces the slices
`files_to_process[i:i+batch_size]` for `i = 0, b, 2b, ...`. -/
def batchesFuel (batchSize : Nat) : Nat → List α → List (List α)
  | _, [] => []
  | 0, _ :: _ => []
  | fuel + 1, x :: xs =>
      (x :: xs).take batchSize :: batchesFuel batchSize fuel ((x :: xs).drop batchSize)

/-- The batch partition produced by
`for i in range(0, len(files_to_process), batch_size)`. -/
def batches (batchSize : Nat) (l : List α) : List (List α) :=
  batchesFuel batchSize l.length l

/-- Settling one whole batch: `zip(batch, results)` folded through
`settleItem`, with the upload outcome of each item given by `out`. -/
def processBatch (out : String × DocMetadata → UploadOutcome)
    (stats : IndexStats) (batch : List (String × DocMetadata)) : IndexStats :=
  batch.foldl (fun st item => settleItem st item (out item)) stats

/-- The batched upload loop of `index_project` (lines 226-256) over the
materialized worklist `items`: batches are processed strictly in
sequence (the `await asyncio.gather` of batch `k` completes before batch
`k+1` is formed), each batch settled item by item. -/
def indexProjectRun (items : List (String × DocMetadata))
    (out : String × DocMetadata → UploadOutcome) (batchSize : Nat) : IndexStats :=
  (batches batchSize items).foldl (processBatch out)
    { total_files := items.length, successful := 0, failed := 0, byType := fun _ => 0 }

/-- `SuperClaudeDocumentProcessor.index_project` after the walk:
a nonexistent project path raises `ValueError` (lines 196-197), modelled
as `Except.error`, before any stats exist. -/
def indexProject (rootExists : Bool) (items : List (String × DocMetadata))
    (out : String × DocMetadata → UploadOutcome) (batchSize : Nat) :
    Except String IndexStats :=
  if rootExists then Except.ok (indexProjectRun items out batchSize)
  else Except.error "Project path does not exist"

end DocProcessor

/-- Outcome of one HTTP GET as seen by a `health_check` caller: either a
response with a status code, or a raised transport error
(connection failure or timeout), which the `except` clause catches. -/
inductive HttpOutcome where
  | status (code : Nat)
  | netError
deriving DecidableEq

/-- `RAGClient.health_check` (`client.py` lines 199-215): `True` exactly on
`response.status == 200`, `False` on any exception. -/
def Client.healthCheck (r : HttpOutcome) : Bool :=
  match r with
  | HttpOutcome.status code => code == 200
  | HttpOutcome.netError => false

/-- `SuperClaudeDocumentProcessor.health_check` (`document_processor.py`
lines 321-328): identical logic. -/
def DocProcessor.healthCheck (r : HttpOutcome) : Bool :=
  match r with
  | HttpOutcome.status code => code == 200
  | HttpOutcome.netError => false

namespace RagClient

/-- The flag-to-patterns conversion of `SuperClaudeRAGClient.index_project`
(`rag_client.py` lines 84-96): build the pattern set from the four flags
and, when it comes out empty, replace it with the `"all"` override. -/
def toIncludePatterns (includeCode includeDocs includeConfigs includeTests : Bool) :
    List String :=
  let ps :=
    (if includeCode then ["code"] else []) ++
    (if includeDocs then ["docs"] else []) ++
    (if includeConfigs then ["configs"] else []) ++
    (if includeTests then ["tests"] else [])
  if ps.isEmpty then ["all"] else ps

end RagClient

-- Model sanity checks for the SuperClaude pipeline.
example : DocProcessor.getFileType "tests/app.py" = DocumentType.test := by decide
example : DocProcessor.getLanguage "tests/app.py" = some "python" := by decide
example : DocProcessor.shouldProcessFile ".secret/notes.txt" ["all"] = false := by decide
example : DocProcessor.shouldProcessFile ".dockerignore" ["all"] = true := by decide
example : DocProcessor.shouldProcessFile "src/main.py" ["code"] = true := by decide
example : DocProcessor.shouldProcessFile "environment.py" ["all"] = false := by decide
example : (DocProcessor.batches 3 (List.range 10)).map List.length = [3, 3, 3, 1] := by decide
example : RagClient.toIncludePatterns false false false false = ["all"] := by decide

/-! ### Helper lemmas about the batch splitter and the stats folds -/

namespace DocProcessor

theorem batchesFuel_join {α : Type _} (b : Nat) (hb : 1 ≤ b) :
    ∀ (fuel : Nat) (l : List α), l.length ≤ fuel →
      (batchesFuel b fuel l).flatten = l := by
  intro fuel
  induction fuel with
  | zero =>
    intro l hl
    match l with
    | [] => rfl
    | x :: xs => simp at hl
  | succ f ih =>
    intro l hl
    match l with
    | [] => rfl
    | x :: xs =>
      have hlen : ((x :: xs).drop b).length ≤ f := by
        simp only [List.length_drop, List.length_cons] at *
        omega
      simp only [batchesFuel, List.flatten_cons, ih _ hlen, List.take_append_drop]

theorem batchesFuel_sizes {α : Type _} (b : Nat) :
    ∀ (fuel : Nat) (l : List α), ∀ c ∈ batchesFuel b fuel l, c.length ≤ b := by
  intro fuel
  induction fuel with
  | zero =>
    intro l c hc
    match l with
    | [] => simp [batchesFuel] at hc
    | x :: xs => simp [batchesFuel] at hc
  | succ f ih =>
    intro l c hc
    match l with
    | [] => simp [batchesFuel] at hc
    | x :: xs =>
      simp only [batchesFuel, List.mem_cons] at hc
      rcases hc with h | h
      · subst h
        simp only [List.length_take]; exact Nat.min_le_left b (x :: xs).length
      · exact ih _ c h

theorem batchesFuel_length {α : Type _} (b : Nat) (hb : 1 ≤ b) :
    ∀ (fuel : Nat) (l : List α), l.length ≤ fuel →
      (batchesFuel b fuel l).length = (l.length + b - 1) / b := by
  intro fuel
  induction fuel with
  | zero =>
    intro l hl
    match l with
    | [] =>
      simp only [batchesFuel, List.length_nil]
      rw [Nat.div_eq_of_lt (by omega)]
    | x :: xs => simp at hl
  | succ f ih =>
    intro l hl
    match l with
    | [] =>
      simp only [batchesFuel, List.length_nil]
      rw [Nat.div_eq_of_lt (by omega)]
    | x :: xs =>
      have hlen : ((x :: xs).drop b).length ≤ f := by
        simp only [List.length_drop, List.length_cons] at *
        omega
      have hrec := ih _ hlen
      simp only [batchesFuel, List.length_cons, List.length_drop] at *
      set n := xs.length + 1 with hn
      have h1 : n + b - 1 = (n - 1) + b := by omega
      rw [hrec, h1, Nat.add_div_right _ (by omega)]
      rcases le_or_lt n b with hle | hlt
      · have h2 : n - b = 0 := by omega
        rw [h2, Nat.div_eq_of_lt (by omega), Nat.div_eq_of_lt (by omega)]
      · have h3 : n - b + b - 1 = n - 1 := by omega
        rw [h3]

theorem settleItem_counts (st : IndexStats) (it : String × DocMetadata)
    (r : UploadOutcome) :
    (settleItem st it r).successful + (settleItem st it r).failed
      = st.successful + st.failed + 1 := by
  cases r <;> simp [settleItem] <;> omega

theorem settleItem_total (st : IndexStats) (it : String × DocMetadata)
    (r : UploadOutcome) :
    (settleItem st it r).total_files = st.total_files := by
  cases r <;> rfl

theorem foldl_settle_counts (out : String × DocMetadata → UploadOutcome) :
    ∀ (l : List (String × DocMetadata)) (st : IndexStats),
      ((l.foldl (fun s it => settleItem s it (out it)) st).successful
        + (l.foldl (fun s it => settleItem s it (out it)) st).failed
        = st.successful + st.failed + l.length)
      ∧ (l.foldl (fun s it => settleItem s it (out it)) st).total_files
        = st.total_files := by
  intro l
  induction l with
  | nil => intro st; simp
  | cons x xs ih =>
    intro st
    have h := ih (settleItem st x (out x))
    constructor
    · rw [List.foldl_cons, h.1, settleItem_counts]
      simp [List.length_cons]
      omega
    · rw [List.foldl_cons, h.2, settleItem_total]

theorem indexProjectRun_eq_foldl (items : List (String × DocMetadata))
    (out : String × DocMetadata → UploadOutcome) (b : Nat) (hb : 1 ≤ b) :
    indexProjectRun items out b
      = items.foldl (fun st item => settleItem st item (out item))
          { total_files := items.length, successful := 0, failed := 0,
            byType := fun _ => 0 } := by
  unfold indexProjectRun processBatch
  rw [← List.foldl_flatten]
  rw [show (batches b items).flatten = items from batchesFuel_join b hb items.length items le_rfl]

end DocProcessor

namespace Processor

theorem processItem_counts (out : String → ItemOutcome) (st : ProcStats)
    (p : String) :
    (processItem out st p).successful + (processItem out st p).failed
      = st.successful + st.failed + 1 := by
  unfold processItem
  cases out p <;> simp <;> omega

theorem processItem_total (out : String → ItemOutcome) (st : ProcStats)
    (p : String) :
    (processItem out st p).total_files = st.total_files := by
  unfold processItem
  cases out p <;> rfl

theorem foldl_processItem_counts (out : String → ItemOutcome) :
    ∀ (l : List String) (st : ProcStats),
      ((l.foldl (processItem out) st).successful
        + (l.foldl (processItem out) st).failed
        = st.successful + st.failed + l.length)
      ∧ (l.foldl (processItem out) st).total_files = st.total_files := by
  intro l
  induction l with
  | nil => intro st; simp
  | cons x xs ih =>
    intro st
    have h := ih (processItem out st x)
    constructor
    · rw [List.foldl_cons, h.1, processItem_counts]
      simp [List.length_cons]
      omega
    · rw [List.foldl_cons, h.2, processItem_total]

end Processor

/-- Association-list fact used for the language-tag analysis: a lookup
succeeds exactly when some key matches. -/
theorem lookup_isSome_any (k : String) :
    ∀ (l : List (String × String)),
      (l.lookup k).isSome = l.any (fun kv => k == kv.1)
  | [] => rfl
  | (a, v) :: rest => by
    simp only [List.lookup, List.any_cons]
    cases h : k == a with
    | true => simp [h]
    | false => simp [h, lookup_isSome_any k rest]

/-! ### Claim theorems -/

/-- C1: at completion of every indexing run — any worklist and any
`batchSize ≥ 1` — the returned stats satisfy
`successful + failed = total_files`, so no work item is silently dropped.
Proved for the batched `SuperClaudeDocumentProcessor.index_project` loop
and for the sequential `DocumentProcessor.process_project` loop. -/
theorem C1_successful_plus_failed_eq_total
    (items : List (String × DocProcessor.DocMetadata))
    (out : String × DocProcessor.DocMetadata → DocProcessor.UploadOutcome)
    (b : Nat) (hb : 1 ≤ b)
    (files : List String) (pout : String → Processor.ItemOutcome) :
    ((DocProcessor.indexProjectRun items out b).successful
        + (DocProcessor.indexProjectRun items out b).failed
        = (DocProcessor.indexProjectRun items out b).total_files)
    ∧ ((Processor.processProjectRun files pout).successful
        + (Processor.processProjectRun files pout).failed
        = (Processor.processProjectRun files pout).total_files) := by
  constructor
  · rw [DocProcessor.indexProjectRun_eq_foldl items out b hb]
    have h := DocProcessor.foldl_settle_counts out items
      { total_files := items.length, successful := 0, failed := 0, byType := fun _ => 0 }
    rw [h.1, h.2]
    simp
  · unfold Processor.processProjectRun
    have h := Processor.foldl_processItem_counts pout files
      { total_files := files.length, successful := 0, failed := 0, byType := fun _ => 0 }
    rw [h.1, h.2]
    simp

/-- Witness for C1 at a concrete one-item worklist with batch size 1. -/
theorem C1_successful_plus_failed_eq_total_witness :
    (DocProcessor.indexProjectRun
        [("src/main.py", DocProcessor.mkDocMetadata "src/main.py" 5 0 "superclaude")]
        (fun _ => DocProcessor.UploadOutcome.ok) 1).successful
      + (DocProcessor.indexProjectRun
        [("src/main.py", DocProcessor.mkDocMetadata "src/main.py" 5 0 "superclaude")]
        (fun _ => DocProcessor.UploadOutcome.ok) 1).failed
      = (DocProcessor.indexProjectRun
        [("src/main.py", DocProcessor.mkDocMetadata "src/main.py" 5 0 "superclaude")]
        (fun _ => DocProcessor.UploadOutcome.ok) 1).total_files :=
  (C1_successful_plus_failed_eq_total _ _ 1 (by decide)
    ["a.py"] (fun _ => Processor.ItemOutcome.uploadOk)).1

/-- C2 counterexample: in `SuperClaudeDocumentProcessor.index_project`, a
work item whose upload fails does not increment the `by_type` tally of
its category — one code file with a failed upload leaves `by_type` for `code` at
0 even though the metadata of the item was constructed at walk time. -/
theorem C2_counterexample :
    (DocProcessor.mkDocMetadata "src/main.py" 5 0 "superclaude").file_type
      = DocumentType.code
    ∧ (DocProcessor.indexProjectRun
        [("src/main.py", DocProcessor.mkDocMetadata "src/main.py" 5 0 "superclaude")]
        (fun _ => DocProcessor.UploadOutcome.err) 10).failed = 1
    ∧ (DocProcessor.indexProjectRun
        [("src/main.py", DocProcessor.mkDocMetadata "src/main.py" 5 0 "superclaude")]
        (fun _ => DocProcessor.UploadOutcome.err) 10).byType DocumentType.code = 0 := by
  refine ⟨by decide, by decide, by decide⟩

/-- C2 (amended): only `DocumentProcessor.process_project` increments the
by-type tally for a failed upload whose metadata was constructed;
`SuperClaudeDocumentProcessor.index_project` increments `by_type` solely
for successful uploads, leaving it untouched on failure. -/
theorem C2_bytype_on_failure
    (out : String → Processor.ItemOutcome) (st : Processor.ProcStats) (p : String)
    (h : out p = Processor.ItemOutcome.uploadFail)
    (st2 : DocProcessor.IndexStats) (item : String × DocProcessor.DocMetadata) :
    ((Processor.processItem out st p).failed = st.failed + 1
      ∧ (Processor.processItem out st p).byType (Processor.classifyDocument p)
          = st.byType (Processor.classifyDocument p) + 1)
    ∧ ((DocProcessor.settleItem st2 item DocProcessor.UploadOutcome.err).failed
          = st2.failed + 1
      ∧ (DocProcessor.settleItem st2 item DocProcessor.UploadOutcome.err).byType
          = st2.byType) := by
  refine ⟨⟨?_, ?_⟩, rfl, rfl⟩
  · simp [Processor.processItem, h]
  · simp [Processor.processItem, h]

/-- Witness for C2 (amended) at a concrete failing code file. -/
theorem C2_bytype_on_failure_witness :
    ((Processor.processItem (fun _ => Processor.ItemOutcome.uploadFail)
        ⟨1, 0, 0, fun _ => 0⟩ "src/main.py").failed = 0 + 1
      ∧ (Processor.processItem (fun _ => Processor.ItemOutcome.uploadFail)
          ⟨1, 0, 0, fun _ => 0⟩ "src/main.py").byType
            (Processor.classifyDocument "src/main.py")
          = (0 : Nat) + 1)
    ∧ ((DocProcessor.settleItem ⟨1, 0, 0, fun _ => 0⟩
          ("a.py", DocProcessor.mkDocMetadata "a.py" 1 0 "x")
          DocProcessor.UploadOutcome.err).failed = 0 + 1
      ∧ (DocProcessor.settleItem ⟨1, 0, 0, fun _ => 0⟩
          ("a.py", DocProcessor.mkDocMetadata "a.py" 1 0 "x")
          DocProcessor.UploadOutcome.err).byType
          = (⟨1, 0, 0, fun _ => 0⟩ : DocProcessor.IndexStats).byType) := by
  have := C2_bytype_on_failure (fun _ => Processor.ItemOutcome.uploadFail)
    ⟨1, 0, 0, fun _ => 0⟩ "src/main.py" rfl
    ⟨1, 0, 0, fun _ => 0⟩ ("a.py", DocProcessor.mkDocMetadata "a.py" 1 0 "x")
  exact ⟨⟨this.1.1, by simpa using this.1.2⟩, this.2.1, this.2.2⟩

/-- C3 counterexample: with all four category flags false and no
all-override, `DocumentProcessor._should_include_file` still returns
`true` for a small file of category `other` — the run does not select
zero files. -/
theorem C3_counterexample :
    Processor.classifyDocument "data.xyz" = DocumentType.other
    ∧ Processor.shouldIncludeFile "data.xyz" (some 10) false false false false
        = true := by
  refine ⟨by decide, by decide⟩

/-- C3 (amended): with all four flags false and no all-override, the
SuperClaude filter `_should_process_file` rejects every input, but
`DocumentProcessor._should_include_file` rejects only files classified
into the four gated categories (category `other` can still pass the
gate), and `SuperClaudeRAGClient.index_project` converts an all-false
flag set into the `"all"` override before filtering. -/
theorem C3_empty_flags_gating
    (path : String) (sz : Option Nat)
    (hne : Processor.classifyDocument path ≠ DocumentType.other) :
    DocProcessor.shouldProcessFile path [] = false
    ∧ RagClient.toIncludePatterns false false false false = ["all"]
    ∧ Processor.shouldIncludeFile path sz false false false false = false := by
  refine ⟨?_, by decide, ?_⟩
  · unfold DocProcessor.shouldProcessFile
    split
    · rfl
    · split
      · rfl
      · simp
  · cases sz with
    | none => simp [Processor.shouldIncludeFile]
    | some s =>
      cases hcl : Processor.classifyDocument path with
      | other => exact absurd hcl hne
      | code => simp [Processor.shouldIncludeFile, hcl]
      | doc => simp [Processor.shouldIncludeFile, hcl]
      | config => simp [Processor.shouldIncludeFile, hcl]
      | test => simp [Processor.shouldIncludeFile, hcl]

/-- Witness for C3 (amended) at a code file with all flags false. -/
theorem C3_empty_flags_gating_witness :
    DocProcessor.shouldProcessFile "src/main.py" [] = false
    ∧ RagClient.toIncludePatterns false false false false = ["all"]
    ∧ Processor.shouldIncludeFile "src/main.py" (some 5) false false false false
        = false :=
  C3_empty_flags_gating "src/main.py" (some 5) (by decide)

/-- C4: for every worklist of `n` items and every `batchSize ≥ 1`, the
Upload Batcher partitions the worklist into `⌈n / batchSize⌉` consecutive
batches each of size at most `batchSize`, whose concatenation is exactly
the worklist (and the run folds them strictly in sequence); concretely,
10 items with batch size 3 yield batches of sizes 3, 3, 3, 1. -/
theorem C4_batcher_partition :
    (∀ {α : Type} (l : List α) (b : Nat), 1 ≤ b →
        (DocProcessor.batches b l).length = (l.length + b - 1) / b
        ∧ (∀ c ∈ DocProcessor.batches b l, c.length ≤ b)
        ∧ (DocProcessor.batches b l).flatten = l)
    ∧ (DocProcessor.batches 3 (List.range 10)).map List.length = [3, 3, 3, 1] := by
  constructor
  · intro α l b hb
    exact ⟨DocProcessor.batchesFuel_length b hb l.length l le_rfl,
           DocProcessor.batchesFuel_sizes b l.length l,
           DocProcessor.batchesFuel_join b hb l.length l le_rfl⟩
  · decide

/-- Witness for C4 at a 10-item worklist with batch size 3. -/
theorem C4_batcher_partition_witness :
    (DocProcessor.batches 3 (List.range 10)).length
        = ((List.range 10).length + 3 - 1) / 3
    ∧ (∀ c ∈ DocProcessor.batches 3 (List.range 10), c.length ≤ 3)
    ∧ (DocProcessor.batches 3 (List.range 10)).flatten = List.range 10 :=
  C4_batcher_partition.1 (List.range 10) 3 (by decide)

/-- C5: any path with a segment starting with the hidden-file marker `'.'`
is rejected by `_should_process_file` regardless of the inclusion spec,
unless its filename is on the fixed dotfile allow-list, in which case the
file may be included (witnessed by `.dockerignore` under the
all-override). -/
theorem C5_hidden_exclusion :
    (∀ (path : String) (patterns : List String),
        (pathParts path).any (fun part => strStartsWith part ".") = true →
        DocProcessor.allowedDotfiles.contains (pathName path) = false →
        DocProcessor.shouldProcessFile path patterns = false)
    ∧ DocProcessor.shouldProcessFile ".dockerignore" ["all"] = true := by
  refine ⟨?_, by decide⟩
  intro path patterns h1 h2
  have h2m : pathName path ∉ DocProcessor.allowedDotfiles := by
    simpa using h2
  unfold DocProcessor.shouldProcessFile
  simp [h1, h2m]

/-- Witness for C5 at a hidden, non-allow-listed path. -/
theorem C5_hidden_exclusion_witness :
    DocProcessor.shouldProcessFile ".secret/notes.txt" ["all"] = false :=
  C5_hidden_exclusion.1 ".secret/notes.txt" ["all"] (by decide) (by decide)

/-- C6: `_should_include_file` excludes every file whose byte size exceeds
the fixed 10 MiB ceiling, and returns `false` (exclusion, not an error)
whenever the size lookup fails (`OSError`, modelled as `none`). -/
theorem C6_size_exclusion
    (path : String) (ic idc icf itf : Bool) (s : Nat)
    (hs : Processor.sizeLimit < s) :
    Processor.shouldIncludeFile path none ic idc icf itf = false
    ∧ Processor.shouldIncludeFile path (some s) ic idc icf itf = false := by
  constructor
  · simp [Processor.shouldIncludeFile]
  · simp [Processor.shouldIncludeFile, hs]

/-- Witness for C6 at a code file one byte over the ceiling. -/
theorem C6_size_exclusion_witness :
    Processor.shouldIncludeFile "src/main.py" none true true true true = false
    ∧ Processor.shouldIncludeFile "src/main.py" (some 10485761) true true true true
        = false :=
  C6_size_exclusion "src/main.py" true true true true 10485761 (by decide)

/-- C7 counterexample: a test file with a recognized code extension carries
a language tag even though its category is `test`, not `code` — the
metadata constructed by `process_project` derives `language` from the
extension alone. -/
theorem C7_counterexample :
    (Processor.mkMetadata "tests/test_foo.py" 1 0 "default").file_type
      = DocumentType.test
    ∧ (Processor.mkMetadata "tests/test_foo.py" 1 0 "default").language
      = some "python" := by
  refine ⟨by decide, by decide⟩

/-- C7 (amended): the `language` field of constructed metadata is present
exactly when the lowercased extension appears in the static language
table, independent of category; in particular non-`code` files (such as
test files ending in `.py`) do carry a language tag. -/
theorem C7_language_from_extension
    (path : String) (sz : Nat) (mt : Int) (pid : String) :
    ((Processor.mkMetadata path sz mt pid).language.isSome
        = Processor.languageMap.any
            (fun kv => lowerStr (pathSuffix path) == kv.1))
    ∧ (DocProcessor.mkDocMetadata "tests/app.py" 1 0 "superclaude").file_type
        = DocumentType.test
    ∧ (DocProcessor.mkDocMetadata "tests/app.py" 1 0 "superclaude").language
        = some "python" :=
  ⟨lookup_isSome_any (lowerStr (pathSuffix path)) Processor.languageMap,
   by decide, by decide⟩

/-- C8: a nonexistent root path makes both indexing entry points fail
immediately with a fatal error surfaced to the caller —
`process_project` returns its error mapping, `index_project` raises
`ValueError` — and neither produces any partial stats. -/
theorem C8_nonexistent_root
    (files : List String) (pout : String → Processor.ItemOutcome)
    (items : List (String × DocProcessor.DocMetadata))
    (out : String × DocProcessor.DocMetadata → DocProcessor.UploadOutcome)
    (b : Nat) :
    Processor.processProject false files pout
      = Processor.ProcResult.error "Project path does not exist"
    ∧ DocProcessor.indexProject false items out b
      = Except.error "Project path does not exist" :=
  ⟨rfl, rfl⟩

/-- C9 counterexample: a 2xx status other than 200 (here 204 No Content)
yields `false` from `health_check`, refuting "true iff the GET yields a
2xx status". -/
theorem C9_counterexample :
    ¬ (Client.healthCheck (HttpOutcome.status 204) = true
        ↔ 200 ≤ 204 ∧ 204 < 300) := by decide

/-- C9 (amended): both `health_check` implementations return `true` exactly
when the GET yields status 200; every other outcome — any other status
(2xx included), connection failure, or timeout — yields `false` without
raising to the caller. -/
theorem C9_health_iff_200 (r : HttpOutcome) :
    (Client.healthCheck r = true ↔ r = HttpOutcome.status 200)
    ∧ (DocProcessor.healthCheck r = true ↔ r = HttpOutcome.status 200) := by
  cases r with
  | status c => simp [Client.healthCheck, DocProcessor.healthCheck]
  | netError => simp [Client.healthCheck, DocProcessor.healthCheck]

/-- C10: deny-list exclusion is substring containment over the whole path
string (not segment equality): whenever any deny-list token occurs
anywhere in the path, both inclusion filters reject it for every
inclusion spec, including the all-override; concretely, `env` inside
`environment.py` and `bin` inside `binary.txt` trigger exclusion. -/
theorem C10_denylist_substring :
    (∀ (path : String) (patterns : List String),
        DocProcessor.skipDirs.any (fun d => strContains path d) = true →
        DocProcessor.shouldProcessFile path patterns = false)
    ∧ (∀ (path : String) (sz : Option Nat) (ic idc icf itf : Bool),
        Processor.exclusions.any (fun e => strContains path e) = true →
        Processor.shouldIncludeFile path sz ic idc icf itf = false)
    ∧ DocProcessor.shouldProcessFile "environment.py" ["all"] = false
    ∧ DocProcessor.shouldProcessFile "binary.txt" ["all"] = false
    ∧ Processor.shouldIncludeFile "environment.py" (some 1) true true true true
        = false := by
  refine ⟨?_, ?_, by decide, by decide, by decide⟩
  · intro path patterns h
    unfold DocProcessor.shouldProcessFile
    split
    · rfl
    · simp [h]
  · intro path sz ic idc icf itf h
    simp [Processor.shouldIncludeFile, h]

/-- Witness for C10 at a dependency-cache path under the all-override. -/
theorem C10_denylist_substring_witness :
    DocProcessor.shouldProcessFile "node_modules/pkg/index.js" ["all"] = false :=
  C10_denylist_substring.1 "node_modules/pkg/index.js" ["all"] (by decide)
